import Mathlib

/-!
A shallow embedding of `src/main.py` (a sequential GPU OCR batch driver) and
proofs about it.  Python values passed to `parse_ocr_result_count` are modelled
by the inductive `PyVal`; exceptions are modelled by `Except String`; the
external collaborators (PIL, OpenCV, PaddleOCR, paddle) are modelled by
explicit inputs (per-frame bounding-box outcomes, per-frame inference
outcomes, a GPU environment record).
-/

namespace PaddleBench

/-- A model of the Python values that can reach `parse_ocr_result_count`:
`None`, booleans, integers, strings, lists and tuples. -/
inductive PyVal where
  | none
  | bool (b : Bool)
  | int (n : Int)
  | str (s : String)
  | list (xs : List PyVal)
  | tuple (xs : List PyVal)
deriving Inhabited

/-- Python `repr`, restricted to the constructors of `PyVal` (the exact text
for containers is immaterial to the program: only whether `str(x).strip()` is
empty matters, and container reprs always contain a bracket). -/
def pyRepr : PyVal → String
  | .none => "None"
  | .bool b => if b then "True" else "False"
  | .int n => toString n
  | .str s => "'" ++ s ++ "'"
  | .list xs => "[" ++ String.intercalate ", " (xs.attach.map fun x => pyRepr x.1) ++ "]"
  | .tuple xs => "(" ++ String.intercalate ", " (xs.attach.map fun x => pyRepr x.1) ++ ")"
decreasing_by all_goals (simp_wf; have := List.sizeOf_lt_of_mem x.2; omega)

/-- Python `str(x)`. -/
def pyStr : PyVal → String
  | .str s => s
  | v => pyRepr v

/-- Python `s.strip()`: remove leading and trailing whitespace.  (Written
over the character list so that it evaluates inside the kernel; Python also
strips some rarer unicode whitespace, which never changes emptiness of the
strings this program handles.) -/
def pyStrip (s : String) : String :=
  .mk (((s.data.dropWhile Char.isWhitespace).reverse.dropWhile
    Char.isWhitespace).reverse)

/-- Python truthiness (`if not result`). -/
def pyTruthy : PyVal → Bool
  | .none => false
  | .bool b => b
  | .int n => n != 0
  | .str s => !s.isEmpty
  | .list xs => !xs.isEmpty
  | .tuple xs => !xs.isEmpty

/-- `isinstance(x, (list, tuple))`, together with the elements when it holds. -/
def isListOrTuple : PyVal → Option (List PyVal)
  | .list xs => some xs
  | .tuple xs => some xs
  | _ => Option.none

/-- `isinstance(x, list)`. -/
def isList : PyVal → Bool
  | .list _ => true
  | _ => false

/-- The elements produced by iterating / indexing a Python value
(`for entry in x`, `x[0]`); `none` models a `TypeError`.  Iterating a string
yields its characters as one-character strings. -/
def pySeqElems : PyVal → Option (List PyVal)
  | .list xs => some xs
  | .tuple xs => some xs
  | .str s => some (s.data.map fun c => .str (String.mk [c]))
  | _ => Option.none

/-- The loop body of `parse_ocr_result_count` (lines 86-92 of `main.py`):
given the running `(lines, boxes)` pair and one entry, count the entry. -/
def countEntry (acc : Nat × Nat) (entry : PyVal) : Nat × Nat :=
  match isListOrTuple entry with
  | some (_ :: e1 :: _) =>
    let lines :=
      match isListOrTuple e1 with
      | some (m0 :: _) => if (pyStrip (pyStr m0)).isEmpty then acc.1 else acc.1 + 1
      | _ => acc.1
    (lines, acc.2 + 1)
  | _ => acc

/-- `parse_ocr_result_count` (lines 76-93 of `main.py`).  Returns
`(lines, boxes)`; `.error` models a raised exception (indexing or iterating a
non-sequence). -/
def parse_ocr_result_count (result : PyVal) : Except String (Nat × Nat) :=
  if !pyTruthy result then .ok (0, 0)
  else
    match pySeqElems result with
    | Option.none => .error "TypeError: object is not subscriptable"
    | some [] => .error "IndexError: list index out of range"
    | some (r0 :: _) =>
      let page_items := if isList r0 then r0 else result
      match pySeqElems page_items with
      | Option.none => .error "TypeError: object is not iterable"
      | some items => .ok (items.foldl countEntry (0, 0))

/-- Outcome of `frame.getbbox()` (line 106 of `main.py`): it may raise, report
no content (`None`, a fully blank page), or report a content box. -/
inductive Bbox where
  | raises
  | empty
  | content
deriving DecidableEq, Inhabited

/-- One page frame of a multi-page TIFF, as `ocr_tiff_file` observes it:
the outcome of its `getbbox()` call, and the combined outcome of
`_preprocess_for_ocr(frame)` followed by `ocr.predict(bgr)` (`.ok` is the raw
detection result handed to `parse_ocr_result_count`; `.error` models an
exception raised while normalizing or inferring this frame). -/
structure Frame where
  bbox : Bbox
  infer : Except String PyVal
deriving Inhabited

/-- `frame.getbbox() is None` succeeded and reported a fully blank frame. -/
def frameBlank (f : Frame) : Bool :=
  match f.bbox with
  | .empty => true
  | _ => false

/-- The result of running `ocr_tiff_file` on one file: the indices of the
frames that were normalized and passed to `ocr.predict`, and either
`(pages, total_lines)` or the exception that aborted the file. -/
structure FileRun where
  sent : List Nat
  outcome : Except String (Nat × Nat)
deriving Inhabited

/-- The page loop of `ocr_tiff_file` (lines 102-113 of `main.py`), with the
current frame index and the `pages` / `total_lines` accumulators explicit. -/
def runFrames : List Frame → Nat → Nat → Nat → FileRun
  | [], _, pages, lines => ⟨[], .ok (pages, lines)⟩
  | f :: fs, i, pages, lines =>
    match f.bbox with
    | .empty => runFrames fs (i + 1) (pages + 1) lines
    | _ =>
      match f.infer with
      | .error e => ⟨[i], .error e⟩
      | .ok result =>
        match parse_ocr_result_count result with
        | .error e => ⟨[i], .error e⟩
        | .ok (l, _) =>
          let r := runFrames fs (i + 1) (pages + 1) (lines + l)
          ⟨i :: r.sent, r.outcome⟩

/-- `ocr_tiff_file` (lines 95-114 of `main.py`), over the observed frames of
the file. -/
def ocr_tiff_file (frames : List Frame) : FileRun :=
  runFrames frames 0 0 0

/-- One `.tif`/`.tiff` directory entry: its filename, whether `Image.open`
raises (and with what message), and its page frames. -/
structure TiffFile where
  name : String
  openErr : Option String
  frames : List Frame
deriving Inhabited

/-- Processing one file inside the `try` of the batch loop (line 152):
`Image.open` failure or the outcome of `ocr_tiff_file`. -/
def processFile (f : TiffFile) : Except String (Nat × Nat) :=
  match f.openErr with
  | some e => .error e
  | Option.none => (ocr_tiff_file f.frames).outcome

/-- One progress line printed by the batch loop (lines 157 and 163): `OK`
with the page and line counts, or `FAIL` with the error text
(`f"{type(e).__name__}: {e}"`; error strings in this model stand for that
type-plus-message text). -/
inductive ProgressLine where
  | okLine (name : String) (pages lines : Nat)
  | failLine (name : String) (msg : String)
deriving DecidableEq, Inhabited

/-- The progress line the batch loop prints for one file. -/
def lineOf (f : TiffFile) : ProgressLine :=
  match processFile f with
  | .ok (pages, lines) => .okLine f.name pages lines
  | .error e => .failLine f.name e

/-- Does processing this file raise? -/
def fileFails (f : TiffFile) : Bool :=
  match processFile f with
  | .error _ => true
  | .ok _ => false

/-- The recorded error message for a failing file. -/
def fileErrMsg (f : TiffFile) : String :=
  match processFile f with
  | .error e => e
  | .ok _ => ""

/-- The mutable accumulator of the batch loop (lines 140-144 of `main.py`),
plus the progress lines printed so far. -/
structure Stats where
  ok : Nat
  failed : Nat
  total_pages : Nat
  total_lines : Nat
  errors : List (String × String)
  progress : List ProgressLine
deriving Inhabited

/-- The body of the batch loop (lines 149-163 of `main.py`): process one file,
update the accumulator, print one progress line. -/
def stepFile (s : Stats) (f : TiffFile) : Stats :=
  match processFile f with
  | .ok (pages, lines) =>
    { s with ok := s.ok + 1,
             total_pages := s.total_pages + pages,
             total_lines := s.total_lines + lines,
             progress := s.progress ++ [.okLine f.name pages lines] }
  | .error e =>
    { s with failed := s.failed + 1,
             errors := s.errors ++ [(f.name, e)],
             progress := s.progress ++ [.failLine f.name e] }

/-- The accumulator at the start of the batch loop. -/
def initStats : Stats := ⟨0, 0, 0, 0, [], []⟩

/-- The whole batch loop over the sorted file list. -/
def runFiles (files : List TiffFile) : Stats :=
  files.foldl stepFile initStats

/-- Python `s.lower()` (ASCII case folding; the unicode cases Python also
folds do not occur in this program's inputs). -/
def pyLower (s : String) : String := .mk (s.data.map Char.toLower)

/-- Lexicographic `≤` on character lists by code point — the comparison
Python's `sorted` applies to the `str` keys. -/
def lexLe : List Char → List Char → Bool
  | [], _ => true
  | _ :: _, [] => false
  | a :: as, b :: bs => if a < b then true else if b < a then false else lexLe as bs

/-- Python `≤` on strings: lexicographic by code point. -/
def pyStrLe (a b : String) : Bool := lexLe a.data b.data

/-- Does `s` end with `suffix`?  (`directory.glob("*.tif")` keeps exactly the
names ending in `.tif`, case-sensitively.) -/
def strEndsWith (s suffix : String) : Bool :=
  List.isPrefixOf suffix.data.reverse s.data.reverse

/-- The comparison `run_batch` sorts with: `key=lambda p: p.name.lower()`. -/
def fileLe (a b : TiffFile) : Bool := pyStrLe (pyLower a.name) (pyLower b.name)

/-- File discovery (lines 124-127 of `main.py`): glob `*.tif` then `*.tiff`
over the directory entries, then sort by lowercased filename. -/
def discoverFiles (entries : List TiffFile) : List TiffFile :=
  ((entries.filter fun f => strEndsWith f.name ".tif") ++
      (entries.filter fun f => strEndsWith f.name ".tiff")).mergeSort fileLe

/-- The environment `assert_gpu_available` probes: whether paddle is compiled
with CUDA, whether `paddle.set_device("gpu")` raises (and with what message),
and whether/what `paddle.device.cuda.device_count()` reports. -/
structure GpuEnv where
  compiledWithCuda : Bool
  setDeviceErr : Option String
  deviceCountKnown : Bool
  deviceCount : Nat
deriving Inhabited

/-- `assert_gpu_available` (lines 19-33 of `main.py`): `some msg` models
`sys.exit(msg)`, `none` models a normal return.  (`sys.exit` inside the
`try` raises `SystemExit`, which `except Exception` does not catch, so the
no-GPU exit propagates.) -/
def assert_gpu_available (env : GpuEnv) : Option String :=
  if !env.compiledWithCuda then
    some "ERROR: PaddlePaddle is not compiled with CUDA. Install the GPU build."
  else
    match env.setDeviceErr with
    | some e => some ("ERROR: Failed to set device to GPU: " ++ e)
    | Option.none =>
      if env.deviceCountKnown && decide (env.deviceCount < 1) then
        some "ERROR: No CUDA GPUs detected."
      else Option.none

/-- How the process terminates: normal return (exit status 0), `sys.exit(msg)`
(prints `msg` as a single line on stderr and exits with status 1), or an
uncaught exception (prints a traceback on stderr and exits with status 1). -/
inductive ExitStatus where
  | success
  | errorExit (msg : String)
  | uncaught (msg : String)
deriving DecidableEq, Inhabited

/-- Everything `run_batch` is given: whether the target is a directory and its
name, the directory entries, the GPU environment, and whether
`PaddleOCR(lang="en")` / `warmup(ocr)` raises. -/
structure BatchInput where
  isDir : Bool
  dirName : String
  entries : List TiffFile
  gpu : GpuEnv
  engineErr : Option String
deriving Inhabited

/-- The observable outcome of `run_batch`: exit status, whether the
no-files message was printed, whether `assert_gpu_available` was invoked,
whether `PaddleOCR(lang="en")` construction was started, the names of the
files the batch loop processed in order, and the final accumulator (absent
when the loop was never entered). -/
structure BatchResult where
  status : ExitStatus
  printedNoFiles : Bool
  gpuChecked : Bool
  engineInitStarted : Bool
  processed : List String
  stats : Option Stats
deriving Inhabited

/-- `run_batch` (lines 120-179 of `main.py`).  Note that the engine
construction and warm-up (lines 136-137) are not wrapped in any handler, so a
failure there is an uncaught exception, unlike the `sys.exit` calls. -/
def run_batch (inp : BatchInput) : BatchResult :=
  if !inp.isDir then
    ⟨.errorExit ("ERROR: Not a directory: " ++ inp.dirName),
      false, false, false, [], Option.none⟩
  else
    let files := discoverFiles inp.entries
    if files.isEmpty then
      ⟨.success, true, false, false, [], Option.none⟩
    else
      match assert_gpu_available inp.gpu with
      | some msg => ⟨.errorExit msg, false, true, false, [], Option.none⟩
      | Option.none =>
        match inp.engineErr with
        | some e => ⟨.uncaught e, false, true, true, [], Option.none⟩
        | Option.none =>
          ⟨.success, false, true, true, files.map (fun f => f.name),
            some (runFiles files)⟩

/-- Does processing this frame complete without raising?  (A blank frame is
skipped, hence fine; otherwise inference and result-counting must both
succeed.) -/
def frameOk (f : Frame) : Bool :=
  match f.bbox with
  | .empty => true
  | _ =>
    match f.infer with
    | .error _ => false
    | .ok r =>
      match parse_ocr_result_count r with
      | .ok _ => true
      | .error _ => false

/-- The lines this frame contributes when its processing succeeds. -/
def frameLines (f : Frame) : Nat :=
  match f.bbox with
  | .empty => 0
  | _ =>
    match f.infer with
    | .ok r =>
      match parse_ocr_result_count r with
      | .ok (l, _) => l
      | .error _ => 0
    | .error _ => 0

/-- The pages a file contributes to the aggregate (zero when it fails). -/
def filePages (f : TiffFile) : Nat :=
  match processFile f with
  | .ok (p, _) => p
  | .error _ => 0

/-- The lines a file contributes to the aggregate (zero when it fails). -/
def fileLines (f : TiffFile) : Nat :=
  match processFile f with
  | .ok (_, l) => l
  | .error _ => 0

/-- Is this a one-line error message carrying the `ERROR:` prefix (the shape
every `sys.exit` call in `main.py` produces)? -/
def isErrorMsg (msg : String) : Bool := msg.data.take 6 == "ERROR:".data

/-- A well-formed detection entry in the PaddleOCR shape
`(region, (text, confidence))`. -/
def mkEntry (region : PyVal) (text : String) (conf : PyVal) : PyVal :=
  .tuple [region, .tuple [.str text, conf]]

/-- Does an entry have the expected shape, i.e. is it a list or tuple with at
least two elements?  Exactly these entries increment `boxes`. -/
def entryWellShaped (e : PyVal) : Bool :=
  match isListOrTuple e with
  | some (_ :: _ :: _) => true
  | _ => false

lemma countEntry_not_wellShaped (acc : Nat × Nat) (e : PyVal)
    (he : entryWellShaped e = false) : countEntry acc e = acc := by
  unfold entryWellShaped at he
  unfold countEntry
  cases h : isListOrTuple e with
  | none => rfl
  | some ys =>
    rw [h] at he
    match ys with
    | [] => rfl
    | [_] => rfl
    | _ :: _ :: _ => simp at he

lemma countEntry_le (acc : Nat × Nat) (e : PyVal) (h : acc.1 ≤ acc.2) :
    (countEntry acc e).1 ≤ (countEntry acc e).2 := by
  unfold countEntry
  cases hs : isListOrTuple e with
  | none => exact h
  | some ys =>
    match ys with
    | [] => exact h
    | [_] => exact h
    | _ :: e1 :: _ =>
      simp only
      cases hm : isListOrTuple e1 with
      | none => simpa using Nat.le_succ_of_le h
      | some ms =>
        match ms with
        | [] => simpa using Nat.le_succ_of_le h
        | m0 :: _ =>
          by_cases ht : (pyStrip (pyStr m0)).isEmpty
          all_goals simp [ht]
          all_goals omega

lemma foldl_countEntry_le (items : List PyVal) (acc : Nat × Nat)
    (h : acc.1 ≤ acc.2) :
    (items.foldl countEntry acc).1 ≤ (items.foldl countEntry acc).2 := by
  induction items generalizing acc with
  | nil => simpa
  | cons e items ih => exact ih _ (countEntry_le acc e h)

lemma countEntry_mkEntry (acc : Nat × Nat) (r : PyVal) (t : String) (c : PyVal) :
    countEntry acc (mkEntry r t c) =
      (if (pyStrip t).isEmpty then acc.1 else acc.1 + 1, acc.2 + 1) := by
  simp [countEntry, mkEntry, isListOrTuple, pyStr]

lemma foldl_countEntry_mkEntries (entries : List (PyVal × String × PyVal))
    (acc : Nat × Nat) :
    ((entries.map fun e => mkEntry e.1 e.2.1 e.2.2).foldl countEntry acc) =
      (acc.1 + (entries.filter fun e => !(pyStrip e.2.1).isEmpty).length,
       acc.2 + entries.length) := by
  induction entries generalizing acc with
  | nil => simp
  | cons e es ih =>
    simp only [List.map_cons, List.foldl_cons, countEntry_mkEntry,
      List.filter_cons]
    rw [ih]
    by_cases h : (pyStrip e.2.1).isEmpty <;> simp [h] <;> omega

lemma length_filter_not_eq {α : Type} (p : α → Bool) (l : List α) :
    (l.filter fun a => !p a).length = l.length - (l.filter p).length := by
  induction l with
  | nil => rfl
  | cons a l ih =>
    have hle := List.length_filter_le p l
    by_cases h : p a
    all_goals simp [List.filter_cons, h, ih]
    all_goals omega

lemma parse_wrapped (L : List PyVal) :
    parse_ocr_result_count (.list [.list L]) = .ok (L.foldl countEntry (0, 0)) := by
  simp [parse_ocr_result_count, pyTruthy, pySeqElems, isList]

lemma parse_bare_nonlist_head (L : List PyVal)
    (h : ∀ e, L.head? = some e → isList e = false) :
    parse_ocr_result_count (.list L) = .ok (L.foldl countEntry (0, 0)) := by
  cases L with
  | nil => rfl
  | cons e es =>
    have he : isList e = false := h e rfl
    simp [parse_ocr_result_count, pyTruthy, pySeqElems, he]

/-- C3: for a wrapped detection result whose entries all have the well-formed
shape `(region, (text, confidence))`, the counter returns
`(N − K, N)` where `N` is the number of entries and `K` the number whose text
strips to empty; in particular when all texts are non-empty it returns
`(N, N)`. -/
theorem counter_counts_wellformed_entries
    (entries : List (PyVal × String × PyVal)) :
    parse_ocr_result_count
        (.list [.list (entries.map fun e => mkEntry e.1 e.2.1 e.2.2)]) =
      .ok (entries.length -
             (entries.filter fun e => (pyStrip e.2.1).isEmpty).length,
           entries.length) := by
  rw [parse_wrapped, foldl_countEntry_mkEntries,
    length_filter_not_eq (fun e => (pyStrip e.2.1).isEmpty) entries]
  simp

/-- C8 counterexample: the claim fails as stated.  A bare list of well-formed
entries whose entries are themselves lists (the shape PaddleOCR's docstring
`[ [ [box, (text, score)], ... ] ]` uses) is misdetected as a single-page
wrapper: `result[0]` is a list, so the code unwraps the first entry and
iterates over its region and metadata instead of over the entries.  On one
entry `[[0, 0], ("hi", 1)]` the bare form yields `(0, 2)` while the wrapped
form yields `(1, 1)`. -/
theorem counter_wrap_invariance_counterexample :
    parse_ocr_result_count
        (.list [.list [.list [.int 0, .int 0], .tuple [.str "hi", .int 1]]]) =
      .ok (0, 2) ∧
    parse_ocr_result_count
        (.list [.list [.list [.list [.int 0, .int 0],
          .tuple [.str "hi", .int 1]]]]) =
      .ok (1, 1) ∧
    (0, 2) ≠ ((1 : Nat), (1 : Nat)) :=
  ⟨rfl, rfl, by simp⟩

/-- C8 amended: the counter returns the same counts for a bare entry list and
for the same list wrapped in a single-page wrapper, provided the first entry
of the bare list is not itself a Python list (e.g. entries encoded as tuples);
when the first entry is a list, the bare list is misdetected as a wrapper and
the counts differ. -/
theorem counter_wrap_invariance_for_nonlist_entries (entries : List PyVal)
    (h : ∀ e, entries.head? = some e → isList e = false) :
    parse_ocr_result_count (.list entries) =
      parse_ocr_result_count (.list [.list entries]) := by
  rw [parse_wrapped, parse_bare_nonlist_head entries h]

/-- C8 amended, witness: a concrete one-tuple-entry list where bare and
wrapped inputs agree. -/
theorem counter_wrap_invariance_for_nonlist_entries_witness :
    parse_ocr_result_count
        (.list [.tuple [.str "box", .tuple [.str "hi", .int 1]]]) =
      parse_ocr_result_count
        (.list [.list [.tuple [.str "box", .tuple [.str "hi", .int 1]]]]) :=
  counter_wrap_invariance_for_nonlist_entries
    [.tuple [.str "box", .tuple [.str "hi", .int 1]]]
    (by intro e he; cases he; rfl)

/-- C9: the counter is defensive — `None` and the empty list yield exactly
`(0, 0)`, any list input (wrapped or unwrapped, entries of arbitrary shapes)
returns a pair without raising, and an entry that does not have the expected
shape (a list/tuple of length at least 2) leaves both counts unchanged. -/
theorem counter_defensive (xs : List PyVal) :
    parse_ocr_result_count PyVal.none = .ok (0, 0) ∧
    parse_ocr_result_count (.list []) = .ok (0, 0) ∧
    (∃ p, parse_ocr_result_count (.list xs) = .ok p) ∧
    ∀ acc e, entryWellShaped e = false → countEntry acc e = acc := by
  refine ⟨rfl, rfl, ?_, fun acc e he => countEntry_not_wellShaped acc e he⟩
  cases xs with
  | nil => exact ⟨(0, 0), rfl⟩
  | cons x xs' => cases x <;> exact ⟨_, rfl⟩

/-- C9 witness: a malformed entry (a bare integer) is skipped and the counter
still returns a pair. -/
theorem counter_defensive_witness :
    (∃ p, parse_ocr_result_count (.list [.int 7]) = .ok p) ∧
    countEntry (0, 0) (.int 7) = (0, 0) :=
  ⟨(counter_defensive [.int 7]).2.2.1,
   (counter_defensive [.int 7]).2.2.2 (0, 0) (.int 7) rfl⟩

/-- C10: whenever `parse_ocr_result_count` returns a pair
`(lineCount, boxCount)`, then `lineCount ≤ boxCount`: a line is only counted
for an entry that was also counted as a box. -/
theorem counter_lines_le_boxes (v : PyVal) (l b : Nat)
    (h : parse_ocr_result_count v = .ok (l, b)) : l ≤ b := by
  unfold parse_ocr_result_count at h
  by_cases ht : pyTruthy v
  · simp only [ht, Bool.not_true, Bool.false_eq_true, if_false] at h
    cases hs : pySeqElems v with
    | none => rw [hs] at h; cases h
    | some ys =>
      rw [hs] at h
      cases ys with
      | nil => cases h
      | cons r0 rest =>
        dsimp only at h
        cases hp : pySeqElems (if isList r0 then r0 else v) with
        | none => rw [hp] at h; cases h
        | some items =>
          rw [hp] at h
          have h' : items.foldl countEntry (0, 0) = (l, b) := by
            injection h
          have hle := foldl_countEntry_le items (0, 0) (Nat.le_refl 0)
          rw [h'] at hle
          exact hle
  · simp only [ht, Bool.not_false, if_true, Except.ok.injEq,
      Prod.mk.injEq] at h
    omega

/-- C10 witness: a concrete input with one line among two boxes. -/
theorem counter_lines_le_boxes_witness :
    parse_ocr_result_count
        (.list [.tuple [.str "box", .tuple [.str "  ", .int 1]],
          .tuple [.str "box", .tuple [.str "t", .int 1]]]) =
      .ok (1, 2) ∧ (1 : Nat) ≤ 2 :=
  ⟨rfl, counter_lines_le_boxes
    (.list [.tuple [.str "box", .tuple [.str "  ", .int 1]],
      .tuple [.str "box", .tuple [.str "t", .int 1]]]) 1 2 rfl⟩

lemma runFiles_closed_form (files : List TiffFile) (s : Stats) :
    files.foldl stepFile s =
      ⟨s.ok + (files.filter fun f => !fileFails f).length,
       s.failed + (files.filter fileFails).length,
       s.total_pages + (files.map filePages).sum,
       s.total_lines + (files.map fileLines).sum,
       s.errors ++ (files.filter fileFails).map (fun f => (f.name, fileErrMsg f)),
       s.progress ++ files.map lineOf⟩ := by
  induction files generalizing s with
  | nil => simp
  | cons f fs ih =>
    rw [List.foldl_cons, ih]
    cases hp : processFile f with
    | ok pl =>
      obtain ⟨p, l⟩ := pl
      simp [stepFile, fileFails, filePages, fileLines, fileErrMsg, lineOf,
        hp, List.filter_cons, Stats.mk.injEq]
      omega
    | error e =>
      simp [stepFile, fileFails, filePages, fileLines, fileErrMsg, lineOf,
        hp, List.filter_cons, Stats.mk.injEq]
      omega

/-- C1: every file is accounted for exactly once (ok or failed), each failing
file is recorded as `(filename, error message)` in the error list in order,
the failed count equals the number of failing files, and every file — failing
or not — yields exactly one progress line (`FAIL` for failing files), so no
per-file exception aborts the batch loop. -/
theorem batch_survives_file_failures (files : List TiffFile) :
    (runFiles files).ok + (runFiles files).failed = files.length ∧
    (runFiles files).failed = (files.filter fileFails).length ∧
    (runFiles files).errors =
      (files.filter fileFails).map (fun f => (f.name, fileErrMsg f)) ∧
    (runFiles files).progress = files.map lineOf := by
  unfold runFiles
  rw [runFiles_closed_form files initStats]
  simp only [initStats, Nat.zero_add, List.nil_append]
  have h1 := length_filter_not_eq fileFails files
  have h2 := List.length_filter_le fileFails files
  exact ⟨by omega, by trivial, by trivial, by trivial⟩

/-- C2: a file whose processing raises contributes nothing to the aggregate
pages, lines and ok count — they are exactly what they were before the file
started — while the failed count goes up by one. -/
theorem failed_file_contributes_nothing (s : Stats) (f : TiffFile)
    (e : String) (h : processFile f = .error e) :
    (stepFile s f).total_pages = s.total_pages ∧
    (stepFile s f).total_lines = s.total_lines ∧
    (stepFile s f).ok = s.ok ∧
    (stepFile s f).failed = s.failed + 1 := by
  simp [stepFile, h]

/-- A file whose first page is OCR'd successfully (one line found) and whose
second page raises during inference. -/
def partialFailFile : TiffFile :=
  ⟨"bad.tif", Option.none,
   [⟨.content, .ok (.list [.list [.tuple [.str "box",
      .tuple [.str "hello", .int 1]]]])⟩,
    ⟨.content, .error "RuntimeError: inference failed"⟩]⟩

/-- C2 witness: the concrete file `partialFailFile` has a successfully OCR'd
first page, still fails overall, and contributes zero pages and zero lines. -/
theorem failed_file_contributes_nothing_witness :
    processFile partialFailFile = .error "RuntimeError: inference failed" ∧
    (stepFile initStats partialFailFile).total_pages = 0 ∧
    (stepFile initStats partialFailFile).total_lines = 0 ∧
    (stepFile initStats partialFailFile).failed = 1 := by
  have h := failed_file_contributes_nothing initStats partialFailFile
    "RuntimeError: inference failed" rfl
  exact ⟨rfl, h.1, h.2.1, h.2.2.2⟩

lemma runFrames_sent_not_blank (frames : List Frame) (i pages lines j : Nat)
    (hj : j ∈ (runFrames frames i pages lines).sent) :
    i ≤ j ∧ j - i < frames.length ∧
      frameBlank (frames.getD (j - i) default) = false := by
  induction frames generalizing i pages lines with
  | nil => simp [runFrames] at hj
  | cons f fs ih =>
    unfold runFrames at hj
    cases hb : f.bbox with
    | empty =>
      rw [hb] at hj
      dsimp only at hj
      obtain ⟨h1, h2, h3⟩ := ih (i + 1) (pages + 1) lines hj
      refine ⟨by omega, by simp only [List.length_cons]; omega, ?_⟩
      have hji : j - i = (j - (i + 1)) + 1 := by omega
      rw [hji, List.getD_cons_succ]
      exact h3
    | raises | content =>
      rw [hb] at hj
      dsimp only at hj
      cases hi : f.infer with
      | error e =>
        rw [hi] at hj
        dsimp only at hj
        simp only [List.mem_singleton] at hj
        refine ⟨by omega, by simp [hj], ?_⟩
        rw [hj, Nat.sub_self, List.getD_cons_zero]
        simp [frameBlank, hb]
      | ok r =>
        rw [hi] at hj
        dsimp only at hj
        cases hpr : parse_ocr_result_count r with
        | error e =>
          rw [hpr] at hj
          dsimp only at hj
          simp only [List.mem_singleton] at hj
          refine ⟨by omega, by simp [hj], ?_⟩
          rw [hj, Nat.sub_self, List.getD_cons_zero]
          simp [frameBlank, hb]
        | ok p =>
          obtain ⟨l, b⟩ := p
          rw [hpr] at hj
          dsimp only at hj
          simp only [List.mem_cons] at hj
          rcases hj with rfl | hj
          · refine ⟨Nat.le_refl j, by simp, ?_⟩
            rw [Nat.sub_self, List.getD_cons_zero]
            simp [frameBlank, hb]
          · obtain ⟨h1, h2, h3⟩ := ih (i + 1) (pages + 1) (lines + l) hj
            refine ⟨by omega, by simp only [List.length_cons]; omega, ?_⟩
            have hji : j - i = (j - (i + 1)) + 1 := by omega
            rw [hji, List.getD_cons_succ]
            exact h3

lemma runFrames_all_ok (frames : List Frame) (i pages lines : Nat)
    (h : ∀ f ∈ frames, frameOk f = true) :
    runFrames frames i pages lines =
      ⟨((frames.enumFrom i).filter fun p => !frameBlank p.2).map Prod.fst,
       .ok (pages + frames.length, lines + (frames.map frameLines).sum)⟩ := by
  induction frames generalizing i pages lines with
  | nil => simp [runFrames]
  | cons f fs ih =>
    have hf : frameOk f = true := h f (List.mem_cons_self f fs)
    have hfs : ∀ g ∈ fs, frameOk g = true :=
      fun g hg => h g (List.mem_cons_of_mem f hg)
    unfold runFrames
    cases hb : f.bbox with
    | empty =>
      dsimp only
      rw [ih (i + 1) (pages + 1) lines hfs]
      have hbl : frameBlank f = true := by simp [frameBlank, hb]
      have hfl : frameLines f = 0 := by simp [frameLines, hb]
      simp [List.enumFrom_cons, hbl, hfl, FileRun.mk.injEq]
      all_goals omega
    | raises | content =>
      dsimp only
      cases hi : f.infer with
      | error e =>
        simp only [frameOk, hb, hi] at hf
        exact Bool.noConfusion hf
      | ok r =>
        dsimp only
        cases hpr : parse_ocr_result_count r with
        | error e =>
          simp only [frameOk, hb, hi, hpr] at hf
          exact Bool.noConfusion hf
        | ok p =>
          obtain ⟨l, b⟩ := p
          dsimp only
          rw [ih (i + 1) (pages + 1) (lines + l) hfs]
          have hbl : frameBlank f = false := by simp [frameBlank, hb]
          have hfl : frameLines f = l := by
            simp only [frameLines, hb, hi, hpr]
          simp [List.enumFrom_cons, hbl, hfl, FileRun.mk.injEq]
          all_goals omega

/-- C4: every frame sent to inference is in range and non-blank (so a frame
whose bounding box reports no content is never normalized nor sent); and when
no frame aborts the file, the page count equals the number of frames (each
frame counted exactly once, blank or not) and the frames sent to inference
are exactly the non-blank ones — including the frames whose bounding-box
query raises, which are treated as non-blank (fail open). -/
theorem frames_counted_blanks_skipped (frames : List Frame) :
    (∀ j ∈ (ocr_tiff_file frames).sent,
       j < frames.length ∧ frameBlank (frames.getD j default) = false) ∧
    ((∀ f ∈ frames, frameOk f = true) →
      ocr_tiff_file frames =
        ⟨((frames.enumFrom 0).filter fun p => !frameBlank p.2).map Prod.fst,
         .ok (frames.length, (frames.map frameLines).sum)⟩) := by
  constructor
  · intro j hj
    obtain ⟨h1, h2, h3⟩ := runFrames_sent_not_blank frames 0 0 0 j hj
    rw [Nat.sub_zero] at h2 h3
    exact ⟨h2, h3⟩
  · intro h
    have hr := runFrames_all_ok frames 0 0 0 h
    simpa [ocr_tiff_file] using hr

/-- Three frames: a blank one, one whose `getbbox()` raises, and one with
content; the latter two OCR to an empty result. -/
def exFrames : List Frame :=
  [⟨.empty, .ok PyVal.none⟩, ⟨.raises, .ok PyVal.none⟩,
   ⟨.content, .ok PyVal.none⟩]

/-- C4 witness: on `exFrames` the blank frame is skipped but still counted,
the raising frame is sent (fail open), and pages = 3. -/
theorem frames_counted_blanks_skipped_witness :
    (1 < exFrames.length ∧ frameBlank (exFrames.getD 1 default) = false) ∧
    ocr_tiff_file exFrames = ⟨[1, 2], .ok (3, 0)⟩ := by
  constructor
  · exact (frames_counted_blanks_skipped exFrames).1 1 (by decide)
  · have h := (frames_counted_blanks_skipped exFrames).2 (by decide)
    rw [h]
    rfl

lemma lexLe_total (a b : List Char) : (lexLe a b || lexLe b a) = true := by
  induction a generalizing b with
  | nil => simp [lexLe]
  | cons x xs ih =>
    cases b with
    | nil => simp [lexLe]
    | cons y ys =>
      by_cases hxy : x < y
      · simp [lexLe, hxy]
      · by_cases hyx : y < x
        · simp [lexLe, hxy, hyx]
        · simpa [lexLe, hxy, hyx] using ih ys

lemma lexLe_trans (a b c : List Char) (h1 : lexLe a b = true)
    (h2 : lexLe b c = true) : lexLe a c = true := by
  induction a generalizing b c with
  | nil => rfl
  | cons x xs ih =>
    cases b with
    | nil => simp [lexLe] at h1
    | cons y ys =>
      cases c with
      | nil => simp [lexLe] at h2
      | cons z zs =>
        by_cases hxy : x < y
        · by_cases hyz : y < z
          · simp [lexLe, lt_trans hxy hyz]
          · by_cases hzy : z < y
            · simp [lexLe, hyz, hzy] at h2
            · have heq : y = z := le_antisymm (not_lt.mp hzy) (not_lt.mp hyz)
              subst heq
              simp [lexLe, hxy]
        · by_cases hyx : y < x
          · simp [lexLe, hxy, hyx] at h1
          · have heq : x = y := le_antisymm (not_lt.mp hyx) (not_lt.mp hxy)
            subst heq
            simp only [lexLe, if_neg hxy, if_neg hyx] at h1
            by_cases hxz : x < z
            · simp [lexLe, hxz]
            · by_cases hzx : z < x
              · simp [lexLe, hxz, hzx] at h2
              · simp only [lexLe, if_neg hxz, if_neg hzx] at h2 ⊢
                exact ih ys zs h1 h2

lemma fileLe_trans (a b c : TiffFile) (h1 : fileLe a b = true)
    (h2 : fileLe b c = true) : fileLe a c = true :=
  lexLe_trans _ _ _ h1 h2

lemma fileLe_total (a b : TiffFile) : (fileLe a b || fileLe b a) = true :=
  lexLe_total _ _

lemma discoverFiles_sorted (entries : List TiffFile) :
    (discoverFiles entries).Pairwise (fun a b => fileLe a b = true) := by
  unfold discoverFiles
  exact List.sorted_mergeSort fileLe_trans fileLe_total _

lemma run_batch_processed_spec (inp : BatchInput) :
    ((run_batch inp).processed = [] ∧ (run_batch inp).stats = Option.none) ∨
      ((run_batch inp).processed =
          (discoverFiles inp.entries).map (fun f => f.name) ∧
        (run_batch inp).stats =
          some (runFiles (discoverFiles inp.entries))) := by
  unfold run_batch
  dsimp only
  repeat' split
  all_goals simp

/-- C5: the file names the batch loop processes are pairwise ascending under
lexicographic comparison of the lowercased names, and whenever the loop is
actually entered the processing order is exactly the discovered list sorted
by lowercased filename.  (The order is deterministic: `run_batch` is a
function of its input.) -/
theorem files_processed_in_sorted_order (inp : BatchInput) :
    ((run_batch inp).processed).Pairwise
      (fun a b => pyStrLe (pyLower a) (pyLower b) = true) ∧
    ((run_batch inp).stats.isSome = true →
      (run_batch inp).processed =
        (discoverFiles inp.entries).map (fun f => f.name)) := by
  have hs := discoverFiles_sorted inp.entries
  rcases run_batch_processed_spec inp with ⟨hp, hn⟩ | ⟨hp, hn⟩
  · rw [hp]
    exact ⟨List.Pairwise.nil, fun hsome => by rw [hn] at hsome; cases hsome⟩
  · rw [hp]
    exact ⟨List.pairwise_map.mpr (hs.imp fun h => h), fun _ => rfl⟩

/-- Directory entries used by the C5 witness: two TIFFs given out of order
(`b.tiff` before `A.tif`) and one non-matching file. -/
def sortWitnessInput : BatchInput :=
  ⟨true, "scans",
   [⟨"b.tiff", Option.none, []⟩, ⟨"A.tif", Option.none, []⟩,
    ⟨"notes.txt", Option.none, []⟩],
   ⟨true, Option.none, true, 1⟩, Option.none⟩

lemma discoverFiles_sortWitness :
    discoverFiles sortWitnessInput.entries =
      [⟨"A.tif", Option.none, []⟩, ⟨"b.tiff", Option.none, []⟩] := by
  unfold discoverFiles
  have hfil :
      ((sortWitnessInput.entries.filter fun f => strEndsWith f.name ".tif") ++
        (sortWitnessInput.entries.filter fun f => strEndsWith f.name ".tiff")) =
        [⟨"A.tif", Option.none, []⟩, ⟨"b.tiff", Option.none, []⟩] := rfl
  rw [hfil]
  exact List.mergeSort_of_sorted (by simp [fileLe, pyStrLe, pyLower, lexLe])

/-- C5 witness: on a concrete directory the batch runs and processes
`A.tif` before `b.tiff` — ascending by lowercased name — while the
non-matching `notes.txt` is not processed. -/
theorem files_processed_in_sorted_order_witness :
    (run_batch sortWitnessInput).processed = ["A.tif", "b.tiff"] := by
  have h := (files_processed_in_sorted_order sortWitnessInput).2
  rw [h, discoverFiles_sortWitness]
  · rfl
  · unfold run_batch
    rw [discoverFiles_sortWitness]
    rfl

/-- C6: when the target is a directory containing no `.tif`/`.tiff` file,
`run_batch` prints the no-files message and returns successfully, without the
GPU precondition check being performed and without the OCR engine being
constructed. -/
theorem zero_files_short_circuit (inp : BatchInput)
    (hdir : inp.isDir = true)
    (hnone : ∀ f ∈ inp.entries,
       strEndsWith f.name ".tif" = false ∧ strEndsWith f.name ".tiff" = false) :
    run_batch inp = ⟨.success, true, false, false, [], Option.none⟩ := by
  have h1 : inp.entries.filter (fun f => strEndsWith f.name ".tif") = [] :=
    List.filter_eq_nil_iff.mpr fun f hf => by simp [(hnone f hf).1]
  have h2 : inp.entries.filter (fun f => strEndsWith f.name ".tiff") = [] :=
    List.filter_eq_nil_iff.mpr fun f hf => by simp [(hnone f hf).2]
  have hd : discoverFiles inp.entries = [] := by
    unfold discoverFiles
    rw [h1, h2]
    simp
  unfold run_batch
  simp [hdir, hd]

/-- C6 witness: a directory with only `notes.txt` and a GPU environment in
which the GPU check would fail — the run still succeeds, so the check was
never reached and the engine never constructed. -/
theorem zero_files_short_circuit_witness :
    run_batch
        ⟨true, "scans", [⟨"notes.txt", Option.none, []⟩],
         ⟨false, Option.none, false, 0⟩, Option.none⟩ =
      ⟨.success, true, false, false, [], Option.none⟩ :=
  zero_files_short_circuit
    ⟨true, "scans", [⟨"notes.txt", Option.none, []⟩],
     ⟨false, Option.none, false, 0⟩, Option.none⟩
    rfl (by decide)

/-- Input whose engine construction/warm-up raises, with a valid directory,
one TIFF and a healthy GPU. -/
def engineFailInput : BatchInput :=
  ⟨true, "scans", [⟨"a.tif", Option.none, []⟩],
   ⟨true, Option.none, true, 1⟩, some "RuntimeError: model load failed"⟩

lemma discoverFiles_engineFail :
    discoverFiles engineFailInput.entries = [⟨"a.tif", Option.none, []⟩] := by
  unfold discoverFiles
  have hfil :
      ((engineFailInput.entries.filter fun f => strEndsWith f.name ".tif") ++
        (engineFailInput.entries.filter fun f => strEndsWith f.name ".tiff")) =
        [⟨"a.tif", Option.none, []⟩] := rfl
  rw [hfil]
  exact List.mergeSort_singleton _

lemma run_batch_engineFail :
    run_batch engineFailInput =
      ⟨.uncaught "RuntimeError: model load failed",
       false, true, true, [], Option.none⟩ := by
  unfold run_batch
  rw [discoverFiles_engineFail]
  rfl

/-- C7 counterexample: the claim fails as stated for engine
construction/warm-up failures.  `PaddleOCR(lang="en")` and `warmup(ocr)`
(lines 136-137 of `main.py`) are not wrapped in any handler, so an error
there terminates the process as an uncaught exception — a traceback, not a
single `ERROR:`-prefixed line on the error stream — unlike the `sys.exit`
calls used for the precondition failures. -/
theorem fatal_error_line_counterexample :
    (run_batch engineFailInput).status =
      .uncaught "RuntimeError: model load failed" ∧
    (∀ msg, (run_batch engineFailInput).status ≠ .errorExit msg) ∧
    (run_batch engineFailInput).status ≠ .success := by
  rw [run_batch_engineFail]
  exact ⟨rfl, fun msg h => ExitStatus.noConfusion h,
    fun h => ExitStatus.noConfusion h⟩

/-- C7 amended: the four precondition failures — target not a directory,
PaddlePaddle without CUDA, GPU device-selection failure, no CUDA GPU
detected — terminate immediately via `sys.exit` with a single
`ERROR:`-prefixed line (non-zero exit status) and no batch processing; an
error during OCR engine construction or warm-up also terminates the process
immediately with a non-zero status and no batch processing, but as an
uncaught exception (traceback), not an `ERROR:`-prefixed line. -/
theorem fatal_failures_terminate (inp : BatchInput) :
    (inp.isDir = false →
      (run_batch inp).status =
        .errorExit ("ERROR: Not a directory: " ++ inp.dirName) ∧
      isErrorMsg ("ERROR: Not a directory: " ++ inp.dirName) = true ∧
      (run_batch inp).processed = [] ∧ (run_batch inp).stats = Option.none) ∧
    (∀ m, assert_gpu_available inp.gpu = some m → isErrorMsg m = true) ∧
    (∀ m, inp.isDir = true → discoverFiles inp.entries ≠ [] →
      assert_gpu_available inp.gpu = some m →
      (run_batch inp).status = .errorExit m ∧
      (run_batch inp).processed = [] ∧ (run_batch inp).stats = Option.none) ∧
    (∀ e, inp.isDir = true → discoverFiles inp.entries ≠ [] →
      assert_gpu_available inp.gpu = Option.none → inp.engineErr = some e →
      (run_batch inp).status = .uncaught e ∧
      (∀ msg, (run_batch inp).status ≠ .errorExit msg) ∧
      (run_batch inp).processed = [] ∧ (run_batch inp).stats = Option.none) := by
  refine ⟨?_, ?_, ?_, ?_⟩
  · intro h
    unfold run_batch
    simp [h, isErrorMsg]
  · intro m hm
    unfold assert_gpu_available at hm
    split at hm
    · cases hm
      rfl
    · split at hm
      · cases hm
        rfl
      · split at hm
        · cases hm
          rfl
        · cases hm
  · intro m hdir hne hgpu
    have hie : (discoverFiles inp.entries).isEmpty = false := by
      cases hd : discoverFiles inp.entries with
      | nil => exact absurd hd hne
      | cons a l => rfl
    unfold run_batch
    simp [hdir, hie, hgpu]
  · intro e hdir hne hgpu heng
    have hie : (discoverFiles inp.entries).isEmpty = false := by
      cases hd : discoverFiles inp.entries with
      | nil => exact absurd hd hne
      | cons a l => rfl
    unfold run_batch
    simp only [hdir, Bool.not_true, Bool.false_eq_true, if_false, hie, hgpu,
      heng]
    exact ⟨by trivial, fun msg h => ExitStatus.noConfusion h, by trivial,
      by trivial⟩

/-- A target that is not a directory. -/
def notDirInput : BatchInput :=
  ⟨false, "/data/missing", [], ⟨false, Option.none, false, 0⟩, Option.none⟩

/-- C7 amended, witness: on a non-directory target the run exits with the
single-line `ERROR:`-prefixed message and nothing is processed. -/
theorem fatal_failures_terminate_witness :
    (run_batch notDirInput).status =
      .errorExit ("ERROR: Not a directory: " ++ "/data/missing") ∧
    isErrorMsg ("ERROR: Not a directory: " ++ "/data/missing") = true ∧
    (run_batch notDirInput).processed = [] ∧
    (run_batch notDirInput).stats = Option.none :=
  (fatal_failures_terminate notDirInput).1 rfl

end PaddleBench
